import Mathlib

/-!
A verification development for the doc-analyzer Document Analysis &
Similarity Engine.  The Go source is shallowly embedded: strings are lists
of characters, the float64 similarity ratio is an exact rational, the
SHA-256 fingerprint is modelled as an injective fingerprint (hash equality
coincides with equality of the hashed strings), and the stateful analysis
orchestrator is a pure function over an explicit store together with an
oracle for the external collaborators and a trace of collaborator calls.
-/

namespace DocAnalyzer

/-- Go strings are modelled as lists of characters (runes). -/
abbrev Text := List Char

/-- Go `unicode.IsSpace`: the Unicode White_Space code points
(ASCII whitespace controls, space, NEL, NBSP and the space separators). -/
def goIsSpace (c : Char) : Bool :=
  c = ' ' || c = '\t' || c = '\n' || c.toNat = 11 || c.toNat = 12 || c = '\r' ||
  c.toNat = 0x85 || c.toNat = 0xA0 || c.toNat = 0x1680 ||
  (0x2000 ≤ c.toNat && c.toNat ≤ 0x200A) || c.toNat = 0x2028 || c.toNat = 0x2029 ||
  c.toNat = 0x202F || c.toNat = 0x205F || c.toNat = 0x3000

/-- Go `strings.Fields`: splits around runs of white space characters,
returning only the non-empty fields. -/
def goFields (s : Text) : List Text :=
  (s.splitOnP goIsSpace).filter (fun w => !w.isEmpty)

/-- Go `strings.Split(content, "\n\n")`: leftmost-first, non-overlapping
split of the text on blank-line separators. -/
def splitBlank : Text → List Text
  | [] => [[]]
  | '\n' :: '\n' :: rest => [] :: splitBlank rest
  | c :: rest =>
    match splitBlank rest with
    | [] => [[c]]
    | seg :: segs => (c :: seg) :: segs

/-- Go `strings.TrimSpace`: removes leading and trailing white space. -/
def goTrimSpace (s : Text) : Text :=
  ((s.dropWhile goIsSpace).reverse.dropWhile goIsSpace).reverse

/-- Go `len(content)` on a string: the UTF-8 byte length. -/
def utf8Len (s : Text) : Nat := (s.map Char.utf8Size).sum

/-- Go `strings.ToLower` restricted to ASCII letters (the only case mapping
exercised by the ASCII inputs considered here). -/
def goToLower (c : Char) : Char :=
  if 'A' ≤ c && c ≤ 'Z' then Char.ofNat (c.toNat + 32) else c

/-- Go `unicode.IsPunct` restricted to ASCII: exactly the ASCII characters
of Unicode general category P (note `$ + < = > ^` and backquote and tilde
and the vertical bar are symbols, not punctuation, and are excluded). -/
def goIsPunct (c : Char) : Bool :=
  c.toNat = 0x21 || c.toNat = 0x22 || c.toNat = 0x23 || c.toNat = 0x25 ||
  c.toNat = 0x26 || c.toNat = 0x27 || c.toNat = 0x28 || c.toNat = 0x29 ||
  c.toNat = 0x2A || c.toNat = 0x2C || c.toNat = 0x2D || c.toNat = 0x2E ||
  c.toNat = 0x2F || c.toNat = 0x3A || c.toNat = 0x3B || c.toNat = 0x3F ||
  c.toNat = 0x40 || c.toNat = 0x5B || c.toNat = 0x5C || c.toNat = 0x5D ||
  c.toNat = 0x5F || c.toNat = 0x7B || c.toNat = 0x7D

/-- The apostrophe character, written by code point. -/
def apostrophe : Char := Char.ofNat 39

/-- The stop word "it's" from the source's stop-word table. -/
def itsContraction : String := "it" ++ String.singleton apostrophe ++ "s"

/-- TextAnalyzer: carries the stop-word set used by significant-word
extraction. -/
structure TextAnalyzer where
  StopWords : List String

/-- NewTextAnalyzer: the default analyzer with the source's English
stop-word table. -/
def NewTextAnalyzer : TextAnalyzer :=
  ⟨["a", "an", "the", "and", "or", "but",
    "is", "are", "was", "were", "be", "been",
    "in", "on", "at", "to", "for", "with",
    "by", "of", "about", "from",
    "this", "that", "these", "those",
    "it", "its", itsContraction, "they", "them", "their"]⟩

/-- TextAnalyzer.AnalyzeText: paragraph count (non-blank segments between
blank lines), word count (whitespace-delimited fields) and character count
(raw byte length). -/
def AnalyzeText (_a : TextAnalyzer) (content : Text) : Nat × Nat × Nat :=
  let paragraphs := splitBlank content
  let nonEmpty := paragraphs.filter (fun p => !(goTrimSpace p).isEmpty)
  (nonEmpty.length, (goFields content).length, utf8Len content)

/-- TextAnalyzer.GetWords: whitespace-delimited tokens. -/
def GetWords (_a : TextAnalyzer) (content : Text) : List Text :=
  goFields content

/-- TextAnalyzer.GetSignificantWords: lower-case, map punctuation to
spaces, split on whitespace and drop stop words. -/
def GetSignificantWords (a : TextAnalyzer) (content : Text) : List Text :=
  let lowered := content.map goToLower
  let depunct := lowered.map (fun c => if goIsPunct c then ' ' else c)
  (goFields depunct).filter (fun w => !(a.StopWords.any (fun sw => sw.data = w)))

/-- Go `strings.Join(ws, " ")`. -/
def joinSpace (ws : List Text) : Text := List.intercalate [' '] ws

/-- TextAnalyzer.GetNGrams: all space-joined windows of n consecutive
whitespace tokens; empty when fewer than n tokens exist. -/
def GetNGrams (a : TextAnalyzer) (content : Text) (n : Nat) : List Text :=
  let words := GetWords a content
  if words.length < n then []
  else (List.range (words.length - n + 1)).map (fun i => joinSpace ((words.drop i).take n))

/-- The character class of the Go regexp escape for whitespace
(tab, newline, form feed, carriage return, space). -/
def reIsSpace (c : Char) : Bool :=
  c = '\t' || c = '\n' || c.toNat = 12 || c = '\r' || c = ' '

/-- Character-by-character run collapsing: the flag records whether the
previous character belonged to a whitespace run, so the first character of
each run becomes one space and the rest of the run is dropped. -/
def collapseWS : Bool → Text → Text
  | _, [] => []
  | prevSpace, c :: rest =>
    if reIsSpace c then
      if prevSpace then collapseWS true rest
      else ' ' :: collapseWS true rest
    else c :: collapseWS false rest

/-- TextAnalyzer.RemoveExcessWhitespace: the regexp replacement collapsing
every maximal run of whitespace into a single space. -/
def RemoveExcessWhitespace (text : Text) : Text := collapseWS false text

/-- PlagiarismChecker: similarity threshold (the float64 threshold is
modelled exactly as a rational), n-gram window size, and the text analyzer
used for preprocessing. -/
structure PlagiarismChecker where
  SimilarityThreshold : ℚ
  NGramSize : Nat
  textAnalyzer : TextAnalyzer

/-- NewPlagiarismChecker: default threshold 0.3 and n-gram size 3. -/
def NewPlagiarismChecker : PlagiarismChecker :=
  { SimilarityThreshold := 3 / 10
    NGramSize := 3
    textAnalyzer := NewTextAnalyzer }

/-- PlagiarismChecker.preprocessText: join the significant words with
single spaces and normalize whitespace. -/
def preprocessText (c : PlagiarismChecker) (text : Text) : Text :=
  RemoveExcessWhitespace (joinSpace (GetSignificantWords c.textAnalyzer text))

/-- PlagiarismChecker.generateNGrams: the frequency map of n-grams of the
text; a frequency map over strings is a multiset of strings. -/
def generateNGrams (c : PlagiarismChecker) (text : Text) (n : Nat) : Multiset Text :=
  (GetNGrams c.textAnalyzer text n : List Text)

/-- PlagiarismChecker.calculateJaccardSimilarity: the ratio of the sizes of
the intersection and the union of the two key sets, 0 when the union is
empty; the float64 quotient is modelled as an exact rational. -/
def calculateJaccardSimilarity (_c : PlagiarismChecker) (ngrams1 ngrams2 : Multiset Text) : ℚ :=
  let set1 := ngrams1.toFinset
  let set2 := ngrams2.toFinset
  let intersection := (set1 ∩ set2).card
  let union := set1.card + set2.card - intersection
  if union = 0 then 0 else (intersection : ℚ) / (union : ℚ)

/-- PlagiarismChecker.calculateHash computes the SHA-256 hex digest of the
content; modelled as an injective fingerprint, so equality of hashes
coincides with equality of the hashed strings. -/
def calculateHash (_c : PlagiarismChecker) (content : Text) : Text := content

/-- One iteration of the CheckPlagiarism comparison loop: exact-hash fast
path on the preprocessed strings, then the Jaccard similarity of the
n-gram sets against the threshold. -/
def candidateMatches (c : PlagiarismChecker) (processedContent : Text)
    (currentNGrams : Multiset Text) (otherContent : Text) : Bool :=
  let processedOtherContent := preprocessText c otherContent
  if calculateHash c processedContent = calculateHash c processedOtherContent then true
  else
    let otherNGrams := generateNGrams c processedOtherContent c.NGramSize
    decide (c.SimilarityThreshold ≤ calculateJaccardSimilarity c currentNGrams otherNGrams)

/-- PlagiarismChecker.CheckPlagiarism: collects the identifiers of all
matching candidates (the Go map is modelled as an association list, the
candidates visited in list order) and reports whether any matched. -/
def CheckPlagiarism (c : PlagiarismChecker) (content : Text)
    (otherContents : List (String × Text)) : Bool × List String :=
  let processedContent := preprocessText c content
  let currentNGrams := generateNGrams c processedContent c.NGramSize
  let similarFileIDs :=
    (otherContents.filter (fun p => candidateMatches c processedContent currentNGrams p.2)).map
      Prod.fst
  (decide (0 < similarFileIDs.length), similarFileIDs)

/-- Word-cloud image bytes. -/
abbrev Image := List Nat

/-- A persisted AnalysisResult row. -/
structure AnalysisRow where
  paragraphCount : Nat
  wordCount : Nat
  characterCount : Nat
  isPlagiarism : Bool
  wordCloudLocation : String
deriving DecidableEq

/-- The persistent state written by the orchestrator: analysis results
keyed by file id, similarity edges, and stored word-cloud images. -/
structure Store where
  results : List (String × AnalysisRow)
  similar : List (String × String)
  wordclouds : List (String × Image)
deriving DecidableEq

/-- The external collaborators of one AnalyzeFile request, as an oracle:
`getFile` is indexed by the number of GetFile calls already made in the
request, so a fetch may succeed at one point of the request and fail at
another; the boolean flags say whether the corresponding repository or
storage call succeeds. -/
structure World where
  getFile : Nat → String → Option (String × Text)
  allFileIDs : Option (List String)
  renderWordCloud : Text → Option (Image × String)
  similarReadOk : Bool
  saveWordCloudOk : Bool
  saveResultOk : Bool
  saveSimilarOk : Bool

/-- The error exits of AnalyzeFile, one per fmt.Errorf site. -/
inductive SvcError
  | failedGetSimilarFiles
  | failedGetFileContent
  | failedGetAllFileIDs
  | failedSaveAnalysisResults
deriving DecidableEq

/-- Collaborator calls recorded in the request trace. -/
inductive CallEvent
  | getAnalysisResult (fileID : String)
  | getSimilarFiles (fileID : String)
  | getFile (fileID : String)
  | getAllFileIDs
  | checkPlagiarism
  | renderWordCloud
  | saveWordCloud (location : String)
  | saveAnalysisResult (fileID : String)
  | saveSimilarFile (fileID similarFileID : String)
deriving DecidableEq

/-- The seven-component return value of AnalyzeFile. -/
structure AnalyzeOutput where
  paragraphCount : Nat
  wordCount : Nat
  characterCount : Nat
  isPlagiarism : Bool
  similarFileIDs : List String
  wordCloudLocation : String
deriving DecidableEq

/-- Repository GetAnalysisResult: the stored row for a file id, if any
(the row-not-found database error is modelled as none). -/
def GetAnalysisResult (s : Store) (fileID : String) : Option AnalysisRow :=
  (s.results.find? (fun p => p.1 == fileID)).map Prod.snd

/-- Repository GetSimilarFiles: the targets of the stored edges of a file. -/
def GetSimilarFiles (s : Store) (fileID : String) : List String :=
  (s.similar.filter (fun p => p.1 == fileID)).map Prod.snd

/-- Repository SaveAnalysisResult: upsert of the row for a file id. -/
def SaveAnalysisResult (s : Store) (fileID : String) (row : AnalysisRow) : Store :=
  { s with results := (fileID, row) :: s.results.filter (fun p => p.1 != fileID) }

/-- Repository SaveSimilarFile: idempotent insert of one similarity edge. -/
def SaveSimilarFile (s : Store) (fileID similarFileID : String) : Store :=
  if (fileID, similarFileID) ∈ s.similar then s
  else { s with similar := s.similar ++ [(fileID, similarFileID)] }

/-- Storage SaveWordCloud: stores the rendered image under its location. -/
def SaveWordCloudStore (s : Store) (location : String) (img : Image) : Store :=
  { s with wordclouds := (location, img) :: s.wordclouds }

/-- The corpus-content loop of AnalyzeFile: for every listed id other than
the target, fetch its content; a failed fetch is logged and skipped.
Returns the association list of fetched contents, the next GetFile call
index, and the trace of the fetch calls. -/
def fetchOthers (w : World) (fileID : String) :
    List String → Nat → List (String × Text) × Nat × List CallEvent
  | [], n => ([], n, [])
  | otherFileID :: rest, n =>
    if otherFileID = fileID then fetchOthers w fileID rest n
    else
      match w.getFile n otherFileID with
      | none =>
        let r := fetchOthers w fileID rest (n + 1)
        (r.1, r.2.1, CallEvent.getFile otherFileID :: r.2.2)
      | some (_, otherContent) =>
        let r := fetchOthers w fileID rest (n + 1)
        ((otherFileID, otherContent) :: r.1, r.2.1, CallEvent.getFile otherFileID :: r.2.2)

/-- The word-cloud branch of AnalyzeFile: refetch the target content,
render, store; render and store failures are swallowed (empty location)
while a failed refetch is a hard error. Returns the location and the
store alongside the branch trace. -/
def wordCloudStep (w : World) (s : Store) (fileID : String) (n : Nat) :
    Except SvcError (String × Store) × List CallEvent :=
  match w.getFile n fileID with
  | none => (Except.error SvcError.failedGetFileContent, [CallEvent.getFile fileID])
  | some (_, text) =>
    match w.renderWordCloud text with
    | none => (Except.ok ("", s), [CallEvent.getFile fileID, CallEvent.renderWordCloud])
    | some (img, location) =>
      if w.saveWordCloudOk then
        (Except.ok (location, SaveWordCloudStore s location img),
         [CallEvent.getFile fileID, CallEvent.renderWordCloud, CallEvent.saveWordCloud location])
      else
        (Except.ok ("", s),
         [CallEvent.getFile fileID, CallEvent.renderWordCloud, CallEvent.saveWordCloud location])

/-- AnalysisService.AnalyzeFile: cache short-circuit on a stored result,
otherwise fetch the target, compute statistics, enumerate and fetch the
corpus, run the similarity check, optionally generate the word cloud, and
persist the result and the similarity edges. Returns the outcome, the
final store and the trace of collaborator calls. -/
def AnalyzeFile (ta : TextAnalyzer) (pc : PlagiarismChecker) (w : World) (s : Store)
    (fileID : String) (generateWordCloud : Bool) :
    Except SvcError AnalyzeOutput × Store × List CallEvent :=
  match GetAnalysisResult s fileID with
  | some row =>
    if row.isPlagiarism then
      if w.similarReadOk then
        (Except.ok ⟨row.paragraphCount, row.wordCount, row.characterCount, row.isPlagiarism,
           GetSimilarFiles s fileID, row.wordCloudLocation⟩, s,
         [CallEvent.getAnalysisResult fileID, CallEvent.getSimilarFiles fileID])
      else
        (Except.error SvcError.failedGetSimilarFiles, s,
         [CallEvent.getAnalysisResult fileID, CallEvent.getSimilarFiles fileID])
    else
      (Except.ok ⟨row.paragraphCount, row.wordCount, row.characterCount, row.isPlagiarism,
         [], row.wordCloudLocation⟩, s, [CallEvent.getAnalysisResult fileID])
  | none =>
    match w.getFile 0 fileID with
    | none =>
      (Except.error SvcError.failedGetFileContent, s,
       [CallEvent.getAnalysisResult fileID, CallEvent.getFile fileID])
    | some (_, content) =>
      let stats := AnalyzeText ta content
      match w.allFileIDs with
      | none =>
        (Except.error SvcError.failedGetAllFileIDs, s,
         [CallEvent.getAnalysisResult fileID, CallEvent.getFile fileID,
          CallEvent.getAllFileIDs])
      | some otherFileIDs =>
        let fetched := fetchOthers w fileID otherFileIDs 1
        let plag := CheckPlagiarism pc content fetched.1
        let preTrace := [CallEvent.getAnalysisResult fileID, CallEvent.getFile fileID,
          CallEvent.getAllFileIDs] ++ fetched.2.2 ++ [CallEvent.checkPlagiarism]
        let wc := if generateWordCloud then wordCloudStep w s fileID fetched.2.1
                  else (Except.ok ("", s), [])
        match wc.1 with
        | Except.error e => (Except.error e, s, preTrace ++ wc.2)
        | Except.ok (wordCloudLocation, s1) =>
          if w.saveResultOk then
            let row : AnalysisRow :=
              ⟨stats.1, stats.2.1, stats.2.2, plag.1, wordCloudLocation⟩
            let s2 := SaveAnalysisResult s1 fileID row
            if plag.1 then
              let s3 := plag.2.foldl
                (fun acc simID =>
                  if w.saveSimilarOk then SaveSimilarFile acc fileID simID else acc) s2
              (Except.ok ⟨stats.1, stats.2.1, stats.2.2, plag.1, plag.2, wordCloudLocation⟩,
               s3,
               preTrace ++ wc.2 ++ [CallEvent.saveAnalysisResult fileID] ++
                 plag.2.map (fun simID => CallEvent.saveSimilarFile fileID simID))
            else
              (Except.ok ⟨stats.1, stats.2.1, stats.2.2, plag.1, plag.2, wordCloudLocation⟩,
               s2, preTrace ++ wc.2 ++ [CallEvent.saveAnalysisResult fileID])
          else
            (Except.error SvcError.failedSaveAnalysisResults, s1,
             preTrace ++ wc.2 ++ [CallEvent.saveAnalysisResult fileID])

/-- A candidate matches exactly when the hashes of the preprocessed
strings are equal or the Jaccard similarity reaches the threshold. -/
theorem candidateMatches_eq_true (c : PlagiarismChecker) (pcon : Text)
    (cn : Multiset Text) (oc : Text) :
    candidateMatches c pcon cn oc = true ↔
      (calculateHash c pcon = calculateHash c (preprocessText c oc) ∨
        c.SimilarityThreshold ≤
          calculateJaccardSimilarity c cn
            (generateNGrams c (preprocessText c oc) c.NGramSize)) := by
  unfold candidateMatches
  by_cases h : calculateHash c pcon = calculateHash c (preprocessText c oc) <;> simp [h]

/-- C1: with the default checker (threshold 0.3, window 3), CheckPlagiarism
reports a match iff some candidate matches, the returned ids are exactly
the matching candidates' ids, and a candidate matches iff the hashes of
the two normalized strings are equal or the Jaccard similarity of their
n-gram sets reaches the threshold. -/
theorem C1_CheckPlagiarism_matches (content : Text) (corpus : List (String × Text)) :
    ((CheckPlagiarism NewPlagiarismChecker content corpus).1 = true ↔
      ∃ p ∈ corpus,
        calculateHash NewPlagiarismChecker (preprocessText NewPlagiarismChecker content) =
            calculateHash NewPlagiarismChecker (preprocessText NewPlagiarismChecker p.2) ∨
          3 / 10 ≤ calculateJaccardSimilarity NewPlagiarismChecker
            (generateNGrams NewPlagiarismChecker
              (preprocessText NewPlagiarismChecker content) 3)
            (generateNGrams NewPlagiarismChecker
              (preprocessText NewPlagiarismChecker p.2) 3)) ∧
    (∀ id, id ∈ (CheckPlagiarism NewPlagiarismChecker content corpus).2 ↔
      ∃ oc, (id, oc) ∈ corpus ∧
        (calculateHash NewPlagiarismChecker (preprocessText NewPlagiarismChecker content) =
            calculateHash NewPlagiarismChecker (preprocessText NewPlagiarismChecker oc) ∨
          3 / 10 ≤ calculateJaccardSimilarity NewPlagiarismChecker
            (generateNGrams NewPlagiarismChecker
              (preprocessText NewPlagiarismChecker content) 3)
            (generateNGrams NewPlagiarismChecker
              (preprocessText NewPlagiarismChecker oc) 3))) ∧
    NewPlagiarismChecker.SimilarityThreshold = 3 / 10 ∧
    NewPlagiarismChecker.NGramSize = 3 := by
  refine ⟨?_, ?_, rfl, rfl⟩
  · simp only [CheckPlagiarism, decide_eq_true_eq, List.length_map, List.length_pos,
      ne_eq, List.filter_eq_nil_iff]
    push_neg
    exact exists_congr fun p => and_congr_right fun _ =>
      candidateMatches_eq_true NewPlagiarismChecker _ _ _
  · intro id
    simp only [CheckPlagiarism, List.mem_map, List.mem_filter]
    constructor
    · rintro ⟨⟨pid, poc⟩, ⟨hmem, hmatch⟩, rfl⟩
      exact ⟨poc, hmem, (candidateMatches_eq_true NewPlagiarismChecker _ _ _).1 hmatch⟩
    · rintro ⟨oc, hmem, hmatch⟩
      exact ⟨(id, oc), ⟨hmem, (candidateMatches_eq_true NewPlagiarismChecker _ _ _).2 hmatch⟩,
        rfl⟩

/-- C2 counterexample: for the document "the and or" — whose normalized
form has no n-grams — the similarity of the document against itself after
normalization is 0, not 1.0, because the code returns 0 when the union of
the two n-gram sets is empty. -/
theorem C2_selfSimilarity_counterexample :
    calculateJaccardSimilarity NewPlagiarismChecker
      (generateNGrams NewPlagiarismChecker
        (preprocessText NewPlagiarismChecker "the and or".data) 3)
      (generateNGrams NewPlagiarismChecker
        (preprocessText NewPlagiarismChecker "the and or".data) 3) = 0 ∧
    ¬ calculateJaccardSimilarity NewPlagiarismChecker
      (generateNGrams NewPlagiarismChecker
        (preprocessText NewPlagiarismChecker "the and or".data) 3)
      (generateNGrams NewPlagiarismChecker
        (preprocessText NewPlagiarismChecker "the and or".data) 3) = 1 := by
  constructor <;> decide

/-- C2 amended: the Jaccard similarity is symmetric; for every document
whose normalized form has at least one n-gram, the similarity of the
document against itself after normalization is 1.0; and two n-gram sets
with empty intersection have similarity 0.0. -/
theorem C2_jaccard_amended :
    (∀ m1 m2 : Multiset Text, calculateJaccardSimilarity NewPlagiarismChecker m1 m2 =
      calculateJaccardSimilarity NewPlagiarismChecker m2 m1) ∧
    (∀ d : Text,
      generateNGrams NewPlagiarismChecker (preprocessText NewPlagiarismChecker d) 3 ≠ 0 →
      calculateJaccardSimilarity NewPlagiarismChecker
        (generateNGrams NewPlagiarismChecker (preprocessText NewPlagiarismChecker d) 3)
        (generateNGrams NewPlagiarismChecker (preprocessText NewPlagiarismChecker d) 3) = 1) ∧
    (∀ m1 m2 : Multiset Text, m1.toFinset ∩ m2.toFinset = ∅ →
      calculateJaccardSimilarity NewPlagiarismChecker m1 m2 = 0) := by
  refine ⟨fun m1 m2 => ?_, fun d hd => ?_, fun m1 m2 h => ?_⟩
  · simp only [calculateJaccardSimilarity]
    rw [Finset.inter_comm, Nat.add_comm]
  · have hc : (generateNGrams NewPlagiarismChecker
        (preprocessText NewPlagiarismChecker d) 3).toFinset.card ≠ 0 := by
      intro h0
      exact hd (Multiset.toFinset_eq_empty.mp (Finset.card_eq_zero.mp h0))
    simp only [calculateJaccardSimilarity, Finset.inter_self, Nat.add_sub_cancel]
    rw [if_neg hc, div_self (by exact_mod_cast hc)]
  · simp only [calculateJaccardSimilarity, h, Finset.card_empty, Nat.sub_zero,
      Nat.cast_zero, zero_div]
    split <;> rfl

/-- Witness for C2 amended: a document with a nonempty n-gram set whose
self-similarity after normalization is 1. -/
theorem C2_jaccard_amended_witness :
    generateNGrams NewPlagiarismChecker
        (preprocessText NewPlagiarismChecker "alpha beta gamma delta".data) 3 ≠ 0 ∧
    calculateJaccardSimilarity NewPlagiarismChecker
      (generateNGrams NewPlagiarismChecker
        (preprocessText NewPlagiarismChecker "alpha beta gamma delta".data) 3)
      (generateNGrams NewPlagiarismChecker
        (preprocessText NewPlagiarismChecker "alpha beta gamma delta".data) 3) = 1 :=
  ⟨by decide, C2_jaccard_amended.2.1 "alpha beta gamma delta".data (by decide)⟩

/-- C10: when both documents normalize to the empty string, the exact-hash
fast path declares them equal, so CheckPlagiarism reports the candidate as
a match even though the Jaccard similarity of the empty n-gram sets is 0. -/
theorem C10_emptyNormalized_fastPath (d1 d2 : Text) (id : String)
    (h1 : preprocessText NewPlagiarismChecker d1 = [])
    (h2 : preprocessText NewPlagiarismChecker d2 = []) :
    CheckPlagiarism NewPlagiarismChecker d1 [(id, d2)] = (true, [id]) ∧
    calculateJaccardSimilarity NewPlagiarismChecker
      (generateNGrams NewPlagiarismChecker (preprocessText NewPlagiarismChecker d1) 3)
      (generateNGrams NewPlagiarismChecker (preprocessText NewPlagiarismChecker d2) 3) = 0 := by
  constructor
  · simp [CheckPlagiarism, candidateMatches, calculateHash, h1, h2]
  · rw [h1, h2]
    decide

/-- Witness for C10: two stop-word-and-punctuation-only documents. -/
theorem C10_emptyNormalized_fastPath_witness :
    preprocessText NewPlagiarismChecker "the and!".data = [] ∧
    preprocessText NewPlagiarismChecker "of, it.".data = [] ∧
    (CheckPlagiarism NewPlagiarismChecker "the and!".data [("f1", "of, it.".data)] =
        (true, ["f1"]) ∧
      calculateJaccardSimilarity NewPlagiarismChecker
        (generateNGrams NewPlagiarismChecker
          (preprocessText NewPlagiarismChecker "the and!".data) 3)
        (generateNGrams NewPlagiarismChecker
          (preprocessText NewPlagiarismChecker "of, it.".data) 3) = 0) :=
  ⟨by decide, by decide,
    C10_emptyNormalized_fastPath "the and!".data "of, it.".data "f1" (by decide) (by decide)⟩

/-- C7: AnalyzeText returns (0,0,0) on the empty string, (1,1,5) on
"Hello", (3,15,83) on the three-paragraph sample, and for every text the
paragraph count is at most the number of blank-line-separated segments. -/
theorem C7_AnalyzeText_stats :
    AnalyzeText NewTextAnalyzer [] = (0, 0, 0) ∧
    AnalyzeText NewTextAnalyzer "Hello".data = (1, 1, 5) ∧
    AnalyzeText NewTextAnalyzer
      "This is the first paragraph.\n\nThis is the second paragraph.\n\nAnd this is the third.".data =
      (3, 15, 83) ∧
    ∀ T : Text, (AnalyzeText NewTextAnalyzer T).1 ≤ (splitBlank T).length := by
  refine ⟨by decide, by decide, by decide, fun T => ?_⟩
  simpa [AnalyzeText] using List.length_filter_le _ (splitBlank T)

/-- C8: for window size n ≥ 1, GetNGrams is empty when the token count is
below n, and otherwise has exactly tokenCount - n + 1 entries, the i-th
being the space-joined text of the n tokens starting at position i. -/
theorem C8_GetNGrams_count (T : Text) (n : Nat) (_hn : 1 ≤ n) :
    ((goFields T).length < n → GetNGrams NewTextAnalyzer T n = []) ∧
    (n ≤ (goFields T).length →
      (GetNGrams NewTextAnalyzer T n).length = (goFields T).length - n + 1 ∧
      ∀ i < (GetNGrams NewTextAnalyzer T n).length,
        (GetNGrams NewTextAnalyzer T n)[i]? =
          some (joinSpace (((goFields T).drop i).take n))) := by
  refine ⟨fun h => by simp [GetNGrams, GetWords, h], fun h => ?_⟩
  have hlt : ¬ (goFields T).length < n := not_lt.2 h
  refine ⟨by simp [GetNGrams, GetWords, hlt], ?_⟩
  intro i hi
  simp only [GetNGrams, GetWords, if_neg hlt] at hi ⊢
  simp only [List.length_map, List.length_range] at hi
  simp [List.getElem?_map, List.getElem?_range, hi]

/-- Witness for C8 at the text "a b c" with window size 2. -/
theorem C8_GetNGrams_count_witness :
    (1 : Nat) ≤ 2 ∧
    (((goFields "a b c".data).length < 2 →
        GetNGrams NewTextAnalyzer "a b c".data 2 = []) ∧
      (2 ≤ (goFields "a b c".data).length →
        (GetNGrams NewTextAnalyzer "a b c".data 2).length =
          (goFields "a b c".data).length - 2 + 1 ∧
        ∀ i < (GetNGrams NewTextAnalyzer "a b c".data 2).length,
          (GetNGrams NewTextAnalyzer "a b c".data 2)[i]? =
            some (joinSpace (((goFields "a b c".data).drop i).take 2)))) :=
  ⟨by decide, C8_GetNGrams_count "a b c".data 2 (by decide)⟩

/-- Reading back a just-saved row returns that row. -/
theorem GetAnalysisResult_save (s : Store) (fileID : String) (row : AnalysisRow) :
    GetAnalysisResult (SaveAnalysisResult s fileID row) fileID = some row := by
  simp [GetAnalysisResult, SaveAnalysisResult, List.find?]

theorem SaveSimilarFile_results (s : Store) (fileID simID : String) :
    (SaveSimilarFile s fileID simID).results = s.results := by
  simp only [SaveSimilarFile]
  split <;> rfl

/-- The similarity-edge persistence loop leaves the results table alone. -/
theorem foldl_saveSimilar_results (w : World) (fileID : String) (l : List String)
    (s0 : Store) :
    (l.foldl (fun acc simID =>
      if w.saveSimilarOk then SaveSimilarFile acc fileID simID else acc) s0).results =
      s0.results := by
  induction l generalizing s0 with
  | nil => rfl
  | cons x xs ih =>
    simp only [List.foldl_cons]
    rw [ih]
    split
    · exact SaveSimilarFile_results ..
    · rfl

theorem GetAnalysisResult_congr (s t : Store) (h : s.results = t.results)
    (fileID : String) :
    GetAnalysisResult s fileID = GetAnalysisResult t fileID := by
  simp [GetAnalysisResult, h]

/-- Cache short-circuit: with a stored row, AnalyzeFile answers from the
store, touches nothing, and calls only the repository. -/
theorem AnalyzeFile_cacheHit (ta : TextAnalyzer) (pc : PlagiarismChecker) (w : World)
    (s : Store) (fileID : String) (gen : Bool) (row : AnalysisRow)
    (hhit : GetAnalysisResult s fileID = some row)
    (hread : w.similarReadOk = true) :
    AnalyzeFile ta pc w s fileID gen =
      (Except.ok ⟨row.paragraphCount, row.wordCount, row.characterCount, row.isPlagiarism,
         if row.isPlagiarism then GetSimilarFiles s fileID else [], row.wordCloudLocation⟩,
       s,
       if row.isPlagiarism then
         [CallEvent.getAnalysisResult fileID, CallEvent.getSimilarFiles fileID]
       else [CallEvent.getAnalysisResult fileID]) := by
  by_cases hp : row.isPlagiarism <;> simp [AnalyzeFile, hhit, hread, hp]

/-- Every event of the corpus-fetch trace is a GetFile call. -/
theorem fetchOthers_trace_getFile (w : World) (fileID : String) :
    ∀ (ids : List String) (n : Nat) (e : CallEvent),
      e ∈ (fetchOthers w fileID ids n).2.2 → ∃ id2, e = CallEvent.getFile id2 := by
  intro ids
  induction ids with
  | nil => intro n e h; simp [fetchOthers] at h
  | cons x xs ih =>
    intro n e h
    by_cases hx : x = fileID
    · rw [fetchOthers, if_pos hx] at h
      exact ih n e h
    · rw [fetchOthers, if_neg hx] at h
      rcases hg : w.getFile n x with _ | p
      · rw [hg] at h
        simp only [List.mem_cons] at h
        rcases h with h | h
        · exact ⟨x, h⟩
        · exact ih (n + 1) e h
      · rw [hg] at h
        simp only [List.mem_cons] at h
        rcases h with h | h
        · exact ⟨x, h⟩
        · exact ih (n + 1) e h

theorem count_checkPlagiarism_fetchTrace (w : World) (fileID : String)
    (ids : List String) (n : Nat) :
    (fetchOthers w fileID ids n).2.2.count CallEvent.checkPlagiarism = 0 := by
  refine List.count_eq_zero.mpr fun hmem => ?_
  rcases fetchOthers_trace_getFile w fileID ids n _ hmem with ⟨id2, h⟩
  exact CallEvent.noConfusion h

/-- The fresh-analysis success path of AnalyzeFile without word cloud:
the computed statistics and verdict come back with an empty location, the
row persisted under the file id is exactly those statistics, and the trace
holds exactly one corpus-wide comparison. -/
theorem AnalyzeFile_fresh (ta : TextAnalyzer) (pc : PlagiarismChecker) (w : World)
    (s : Store) (fileID nm : String) (content : Text) (ids : List String)
    (hfresh : GetAnalysisResult s fileID = none)
    (htarget : w.getFile 0 fileID = some (nm, content))
    (hlist : w.allFileIDs = some ids)
    (hsave : w.saveResultOk = true) :
    ∃ st tr,
      AnalyzeFile ta pc w s fileID false =
        (Except.ok ⟨(AnalyzeText ta content).1, (AnalyzeText ta content).2.1,
           (AnalyzeText ta content).2.2,
           (CheckPlagiarism pc content (fetchOthers w fileID ids 1).1).1,
           (CheckPlagiarism pc content (fetchOthers w fileID ids 1).1).2, ""⟩, st, tr) ∧
      GetAnalysisResult st fileID = some
        ⟨(AnalyzeText ta content).1, (AnalyzeText ta content).2.1,
         (AnalyzeText ta content).2.2,
         (CheckPlagiarism pc content (fetchOthers w fileID ids 1).1).1, ""⟩ ∧
      tr.count CallEvent.checkPlagiarism = 1 := by
  have hft := count_checkPlagiarism_fetchTrace w fileID ids 1
  have hmap : List.count CallEvent.checkPlagiarism
      ((CheckPlagiarism pc content (fetchOthers w fileID ids 1).1).2.map
        (fun simID => CallEvent.saveSimilarFile fileID simID)) = 0 :=
    List.count_eq_zero.mpr fun hmem => by
      rcases List.mem_map.mp hmem with ⟨sid, _, h⟩
      exact CallEvent.noConfusion h
  by_cases hp : (CheckPlagiarism pc content (fetchOthers w fileID ids 1).1).1
  · refine ⟨(CheckPlagiarism pc content (fetchOthers w fileID ids 1).1).2.foldl
        (fun acc simID => if w.saveSimilarOk then SaveSimilarFile acc fileID simID else acc)
        (SaveAnalysisResult s fileID
          ⟨(AnalyzeText ta content).1, (AnalyzeText ta content).2.1,
           (AnalyzeText ta content).2.2,
           (CheckPlagiarism pc content (fetchOthers w fileID ids 1).1).1, ""⟩),
      [CallEvent.getAnalysisResult fileID, CallEvent.getFile fileID,
        CallEvent.getAllFileIDs] ++ (fetchOthers w fileID ids 1).2.2 ++
        [CallEvent.checkPlagiarism] ++ [CallEvent.saveAnalysisResult fileID] ++
        (CheckPlagiarism pc content (fetchOthers w fileID ids 1).1).2.map
          (fun simID => CallEvent.saveSimilarFile fileID simID),
      ?_, ?_, ?_⟩
    · simp [AnalyzeFile, hfresh, htarget, hlist, hsave, hp]
    · rw [GetAnalysisResult_congr _ _ (foldl_saveSimilar_results ..) fileID]
      exact GetAnalysisResult_save ..
    · simp [List.count_append, List.count_cons, hft, hmap]
  · refine ⟨SaveAnalysisResult s fileID
        ⟨(AnalyzeText ta content).1, (AnalyzeText ta content).2.1,
         (AnalyzeText ta content).2.2,
         (CheckPlagiarism pc content (fetchOthers w fileID ids 1).1).1, ""⟩,
      [CallEvent.getAnalysisResult fileID, CallEvent.getFile fileID,
        CallEvent.getAllFileIDs] ++ (fetchOthers w fileID ids 1).2.2 ++
        [CallEvent.checkPlagiarism] ++ [CallEvent.saveAnalysisResult fileID],
      ?_, ?_, ?_⟩
    · simp [AnalyzeFile, hfresh, htarget, hlist, hsave, hp]
    · exact GetAnalysisResult_save ..
    · simp [List.count_append, List.count_cons, hft]

/-- Every document delivered by the corpus loop is a listed id other than
the target, with the content some GetFile call returned for it. -/
theorem fetchOthers_sound (w : World) (fileID : String) :
    ∀ (ids : List String) (n : Nat) (p : String × Text),
      p ∈ (fetchOthers w fileID ids n).1 →
        p.1 ∈ ids ∧ p.1 ≠ fileID ∧ ∃ k nm2, w.getFile k p.1 = some (nm2, p.2) := by
  intro ids
  induction ids with
  | nil => intro n p h; simp [fetchOthers] at h
  | cons x xs ih =>
    intro n p h
    by_cases hx : x = fileID
    · rw [fetchOthers, if_pos hx] at h
      obtain ⟨h1, h2, h3⟩ := ih n p h
      exact ⟨List.mem_cons_of_mem _ h1, h2, h3⟩
    · rw [fetchOthers, if_neg hx] at h
      rcases hg : w.getFile n x with _ | q
      · rw [hg] at h
        obtain ⟨h1, h2, h3⟩ := ih (n + 1) p h
        exact ⟨List.mem_cons_of_mem _ h1, h2, h3⟩
      · rw [hg] at h
        rcases List.mem_cons.mp h with h | h
        · subst h
          exact ⟨List.mem_cons_self _ _, hx, ⟨n, q.1, by rw [hg]⟩⟩
        · obtain ⟨h1, h2, h3⟩ := ih (n + 1) p h
          exact ⟨List.mem_cons_of_mem _ h1, h2, h3⟩

/-- When every fetch succeeds, the corpus loop delivers exactly the listed
ids minus the target, in order. -/
theorem fetchOthers_complete (w : World) (fileID : String)
    (hall : ∀ k id2, (w.getFile k id2).isSome = true) :
    ∀ (ids : List String) (n : Nat),
      (fetchOthers w fileID ids n).1.map Prod.fst =
        ids.filter (fun i => !decide (i = fileID)) := by
  intro ids
  induction ids with
  | nil => intro n; simp [fetchOthers]
  | cons x xs ih =>
    intro n
    by_cases hx : x = fileID
    · rw [fetchOthers, if_pos hx]
      simp [List.filter_cons, hx, ih n]
    · rw [fetchOthers, if_neg hx]
      rcases hg : w.getFile n x with _ | q
      · have := hall n x
        rw [hg] at this
        simp at this
      · simp [List.filter_cons, hx, ih (n + 1)]

/-- The empty persistent store. -/
def emptyStore : Store := ⟨[], [], []⟩

/-- A fully functioning collaborator world with an empty corpus. -/
def wOk : World :=
  { getFile := fun _ _ => some ("t.txt", "hello world".data)
    allFileIDs := some []
    renderWordCloud := fun _ => none
    similarReadOk := true
    saveWordCloudOk := true
    saveResultOk := true
    saveSimilarOk := true }

/-- A world whose corpus listing fails. -/
def wListFail : World :=
  { getFile := fun _ _ => some ("t.txt", "hi".data)
    allFileIDs := none
    renderWordCloud := fun _ => none
    similarReadOk := true
    saveWordCloudOk := true
    saveResultOk := true
    saveSimilarOk := true }

/-- A world where only the target document "f" is fetchable, so every
corpus fetch fails. -/
def wCorpusFail : World :=
  { getFile := fun _ id => if id = "f" then some ("t.txt", "hello world".data) else none
    allFileIDs := some ["g", "f"]
    renderWordCloud := fun _ => none
    similarReadOk := true
    saveWordCloudOk := true
    saveResultOk := true
    saveSimilarOk := true }

/-- A world where only the very first GetFile call succeeds, so the
word-cloud refetch of the target fails. -/
def wRefetchFail : World :=
  { getFile := fun k _ => if k = 0 then some ("t.txt", "hello world".data) else none
    allFileIDs := some []
    renderWordCloud := fun _ => none
    similarReadOk := true
    saveWordCloudOk := true
    saveResultOk := true
    saveSimilarOk := true }

/-- C3: for a document with no stored result whose first analysis
succeeds, calling AnalyzeFile(id, false) twice in sequence returns
identical statistics both times and triggers exactly one corpus-wide
comparison: the second call is served from the stored row, with no
target-content fetch, no corpus enumeration and no similarity check. -/
theorem C3_AnalyzeFile_idempotent (ta : TextAnalyzer) (pc : PlagiarismChecker) (w : World)
    (s : Store) (fileID : String)
    (hfresh : GetAnalysisResult s fileID = none)
    (hread : w.similarReadOk = true)
    (hok : ∃ out, (AnalyzeFile ta pc w s fileID false).1 = Except.ok out) :
    ∃ out1 out2,
      (AnalyzeFile ta pc w s fileID false).1 = Except.ok out1 ∧
      (AnalyzeFile ta pc w (AnalyzeFile ta pc w s fileID false).2.1 fileID false).1 =
        Except.ok out2 ∧
      out2.paragraphCount = out1.paragraphCount ∧
      out2.wordCount = out1.wordCount ∧
      out2.characterCount = out1.characterCount ∧
      out2.isPlagiarism = out1.isPlagiarism ∧
      out2.wordCloudLocation = out1.wordCloudLocation ∧
      (AnalyzeFile ta pc w s fileID false).2.2.count CallEvent.checkPlagiarism = 1 ∧
      (AnalyzeFile ta pc w (AnalyzeFile ta pc w s fileID false).2.1 fileID false).2.2.count
        CallEvent.checkPlagiarism = 0 ∧
      (∀ id2, CallEvent.getFile id2 ∉
        (AnalyzeFile ta pc w (AnalyzeFile ta pc w s fileID false).2.1 fileID false).2.2) ∧
      CallEvent.getAllFileIDs ∉
        (AnalyzeFile ta pc w (AnalyzeFile ta pc w s fileID false).2.1 fileID false).2.2 := by
  obtain ⟨out, hout⟩ := hok
  rcases h0 : w.getFile 0 fileID with _ | ⟨nm, content⟩
  · simp [AnalyzeFile, hfresh, h0] at hout
  rcases hl : w.allFileIDs with _ | ids
  · simp [AnalyzeFile, hfresh, h0, hl] at hout
  by_cases hsv : w.saveResultOk = true
  case neg => simp [AnalyzeFile, hfresh, h0, hl, hsv] at hout
  obtain ⟨st, tr, heq, hget, hcount⟩ :=
    AnalyzeFile_fresh ta pc w s fileID nm content ids hfresh h0 hl hsv
  have hst : (AnalyzeFile ta pc w s fileID false).2.1 = st := by rw [heq]
  have h2 := AnalyzeFile_cacheHit ta pc w st fileID false _ hget hread
  refine ⟨_, _, by rw [heq], by rw [hst, h2], ?_, ?_, ?_, ?_, ?_, by rw [heq]; exact hcount,
    ?_, ?_, ?_⟩
  · rfl
  · rfl
  · rfl
  · rfl
  · rfl
  · rw [hst, h2]
    by_cases hp : (CheckPlagiarism pc content (fetchOthers w fileID ids 1).1).1 <;>
      simp [hp, List.count_cons]
  · intro id2
    rw [hst, h2]
    by_cases hp : (CheckPlagiarism pc content (fetchOthers w fileID ids 1).1).1 <;>
      simp [hp]
  · rw [hst, h2]
    by_cases hp : (CheckPlagiarism pc content (fetchOthers w fileID ids 1).1).1 <;>
      simp [hp]

/-- Witness for C3: a fresh analysis of "f" in a functioning world. -/
theorem C3_AnalyzeFile_idempotent_witness :
    GetAnalysisResult emptyStore "f" = none ∧
    wOk.similarReadOk = true ∧
    (∃ out, (AnalyzeFile NewTextAnalyzer NewPlagiarismChecker wOk emptyStore "f" false).1 =
      Except.ok out) ∧
    (∃ out1 out2,
      (AnalyzeFile NewTextAnalyzer NewPlagiarismChecker wOk emptyStore "f" false).1 =
        Except.ok out1 ∧
      (AnalyzeFile NewTextAnalyzer NewPlagiarismChecker wOk
        (AnalyzeFile NewTextAnalyzer NewPlagiarismChecker wOk emptyStore "f" false).2.1
        "f" false).1 = Except.ok out2 ∧
      out2.paragraphCount = out1.paragraphCount ∧
      out2.wordCount = out1.wordCount ∧
      out2.characterCount = out1.characterCount ∧
      out2.isPlagiarism = out1.isPlagiarism ∧
      out2.wordCloudLocation = out1.wordCloudLocation ∧
      (AnalyzeFile NewTextAnalyzer NewPlagiarismChecker wOk emptyStore "f"
        false).2.2.count CallEvent.checkPlagiarism = 1 ∧
      (AnalyzeFile NewTextAnalyzer NewPlagiarismChecker wOk
        (AnalyzeFile NewTextAnalyzer NewPlagiarismChecker wOk emptyStore "f" false).2.1
        "f" false).2.2.count CallEvent.checkPlagiarism = 0 ∧
      (∀ id2, CallEvent.getFile id2 ∉
        (AnalyzeFile NewTextAnalyzer NewPlagiarismChecker wOk
          (AnalyzeFile NewTextAnalyzer NewPlagiarismChecker wOk emptyStore "f" false).2.1
          "f" false).2.2) ∧
      CallEvent.getAllFileIDs ∉
        (AnalyzeFile NewTextAnalyzer NewPlagiarismChecker wOk
          (AnalyzeFile NewTextAnalyzer NewPlagiarismChecker wOk emptyStore "f" false).2.1
          "f" false).2.2) :=
  ⟨rfl, rfl, ⟨⟨1, 2, 11, false, [], ""⟩, rfl⟩,
    C3_AnalyzeFile_idempotent NewTextAnalyzer NewPlagiarismChecker wOk emptyStore "f"
      rfl rfl ⟨⟨1, 2, 11, false, [], ""⟩, rfl⟩⟩

/-- C4: for an id without a stored result whose corpus listing fails after
a successful target fetch, AnalyzeFile fails with the listing error (an
UpstreamUnavailable-kind error) and persists nothing. -/
theorem C4_listingFailure_noPersist (ta : TextAnalyzer) (pc : PlagiarismChecker)
    (w : World) (s : Store) (fileID nm : String) (content : Text) (gen : Bool)
    (hfresh : GetAnalysisResult s fileID = none)
    (htarget : w.getFile 0 fileID = some (nm, content))
    (hlist : w.allFileIDs = none) :
    (AnalyzeFile ta pc w s fileID gen).1 = Except.error SvcError.failedGetAllFileIDs ∧
    (AnalyzeFile ta pc w s fileID gen).2.1 = s ∧
    GetAnalysisResult (AnalyzeFile ta pc w s fileID gen).2.1 fileID = none := by
  simp [AnalyzeFile, hfresh, htarget, hlist]

/-- Witness for C4: a world whose listing call fails. -/
theorem C4_listingFailure_noPersist_witness :
    GetAnalysisResult emptyStore "f" = none ∧
    wListFail.getFile 0 "f" = some ("t.txt", "hi".data) ∧
    wListFail.allFileIDs = none ∧
    ((AnalyzeFile NewTextAnalyzer NewPlagiarismChecker wListFail emptyStore "f" false).1 =
        Except.error SvcError.failedGetAllFileIDs ∧
      (AnalyzeFile NewTextAnalyzer NewPlagiarismChecker wListFail emptyStore "f"
        false).2.1 = emptyStore ∧
      GetAnalysisResult
        (AnalyzeFile NewTextAnalyzer NewPlagiarismChecker wListFail emptyStore "f"
          false).2.1 "f" = none) :=
  ⟨rfl, rfl, rfl,
    C4_listingFailure_noPersist NewTextAnalyzer NewPlagiarismChecker wListFail emptyStore
      "f" "t.txt" "hi".data false rfl rfl rfl⟩

/-- C5: the comparison corpus is sound (only listed, non-target ids with
their fetched content), complete when every fetch succeeds (exactly the
listed ids minus the target), and a fresh analysis succeeds regardless of
individual corpus-fetch failures, running the similarity check on exactly
the fetched corpus. -/
theorem C5_corpus_selfExclusion_skipFailures :
    (∀ (w : World) (fileID : String) (ids : List String) (n : Nat) (p : String × Text),
      p ∈ (fetchOthers w fileID ids n).1 →
        p.1 ∈ ids ∧ p.1 ≠ fileID ∧ ∃ k nm2, w.getFile k p.1 = some (nm2, p.2)) ∧
    (∀ (w : World) (fileID : String) (ids : List String) (n : Nat),
      (∀ k id2, (w.getFile k id2).isSome = true) →
      (fetchOthers w fileID ids n).1.map Prod.fst =
        ids.filter (fun i => !decide (i = fileID))) ∧
    (∀ (ta : TextAnalyzer) (pc : PlagiarismChecker) (w : World) (s : Store)
      (fileID nm : String) (content : Text) (ids : List String),
      GetAnalysisResult s fileID = none →
      w.getFile 0 fileID = some (nm, content) →
      w.allFileIDs = some ids →
      w.saveResultOk = true →
      ∃ out, (AnalyzeFile ta pc w s fileID false).1 = Except.ok out ∧
        out.isPlagiarism = (CheckPlagiarism pc content (fetchOthers w fileID ids 1).1).1 ∧
        out.similarFileIDs =
          (CheckPlagiarism pc content (fetchOthers w fileID ids 1).1).2) := by
  refine ⟨fun w fileID ids n p h => fetchOthers_sound w fileID ids n p h,
    fun w fileID ids n hall => fetchOthers_complete w fileID hall ids n,
    fun ta pc w s fileID nm content ids hfresh htarget hlist hsave => ?_⟩
  obtain ⟨st, tr, heq, -, -⟩ :=
    AnalyzeFile_fresh ta pc w s fileID nm content ids hfresh htarget hlist hsave
  exact ⟨_, by rw [heq], rfl, rfl⟩

/-- Witness for C5: completeness in an all-success world and overall
success in a world where the only non-target corpus fetch fails. -/
theorem C5_corpus_selfExclusion_skipFailures_witness :
    ((∀ k id2, (wOk.getFile k id2).isSome = true) ∧
      (fetchOthers wOk "f" ["g", "f"] 1).1.map Prod.fst =
        ["g", "f"].filter (fun i => !decide (i = "f"))) ∧
    (GetAnalysisResult emptyStore "f" = none ∧
      wCorpusFail.getFile 0 "f" = some ("t.txt", "hello world".data) ∧
      wCorpusFail.allFileIDs = some ["g", "f"] ∧
      wCorpusFail.saveResultOk = true ∧
      ∃ out, (AnalyzeFile NewTextAnalyzer NewPlagiarismChecker wCorpusFail emptyStore "f"
          false).1 = Except.ok out ∧
        out.isPlagiarism = (CheckPlagiarism NewPlagiarismChecker "hello world".data
          (fetchOthers wCorpusFail "f" ["g", "f"] 1).1).1 ∧
        out.similarFileIDs = (CheckPlagiarism NewPlagiarismChecker "hello world".data
          (fetchOthers wCorpusFail "f" ["g", "f"] 1).1).2) :=
  ⟨⟨fun _ _ => rfl,
      C5_corpus_selfExclusion_skipFailures.2.1 wOk "f" ["g", "f"] 1 (fun _ _ => rfl)⟩,
    rfl, rfl, rfl, rfl,
    C5_corpus_selfExclusion_skipFailures.2.2 NewTextAnalyzer NewPlagiarismChecker
      wCorpusFail emptyStore "f" "t.txt" "hello world".data ["g", "f"] rfl rfl rfl rfl⟩

/-- C6: when word-cloud generation is requested and rendering fails or
saving the rendered image fails, the request still succeeds: the result is
persisted and returned with an empty word-cloud location. -/
theorem C6_wordCloudFailure_nonFatal (ta : TextAnalyzer) (pc : PlagiarismChecker)
    (w : World) (s : Store) (fileID nm : String) (content : Text) (ids : List String)
    (hfresh : GetAnalysisResult s fileID = none)
    (htarget : ∀ k, w.getFile k fileID = some (nm, content))
    (hlist : w.allFileIDs = some ids)
    (hsave : w.saveResultOk = true)
    (hwc : w.renderWordCloud content = none ∨ w.saveWordCloudOk = false) :
    ∃ out st tr,
      AnalyzeFile ta pc w s fileID true = (Except.ok out, st, tr) ∧
      out.wordCloudLocation = "" ∧
      ∃ row, GetAnalysisResult st fileID = some row ∧
        row.wordCloudLocation = "" ∧
        row.paragraphCount = (AnalyzeText ta content).1 ∧
        row.wordCount = (AnalyzeText ta content).2.1 ∧
        row.characterCount = (AnalyzeText ta content).2.2 := by
  have hW : ∃ trW, wordCloudStep w s fileID (fetchOthers w fileID ids 1).2.1 =
      (Except.ok ("", s), trW) := by
    rcases hwc with hr | hs
    · exact ⟨[CallEvent.getFile fileID, CallEvent.renderWordCloud],
        by simp [wordCloudStep, htarget _, hr]⟩
    · rcases hre : w.renderWordCloud content with _ | q
      · exact ⟨[CallEvent.getFile fileID, CallEvent.renderWordCloud],
          by simp [wordCloudStep, htarget _, hre]⟩
      · exact ⟨[CallEvent.getFile fileID, CallEvent.renderWordCloud,
            CallEvent.saveWordCloud q.2],
          by simp [wordCloudStep, htarget _, hre, hs]⟩
  obtain ⟨trW, hW⟩ := hW
  by_cases hp : (CheckPlagiarism pc content (fetchOthers w fileID ids 1).1).1
  · refine ⟨⟨(AnalyzeText ta content).1, (AnalyzeText ta content).2.1,
        (AnalyzeText ta content).2.2,
        (CheckPlagiarism pc content (fetchOthers w fileID ids 1).1).1,
        (CheckPlagiarism pc content (fetchOthers w fileID ids 1).1).2, ""⟩,
      (CheckPlagiarism pc content (fetchOthers w fileID ids 1).1).2.foldl
        (fun acc simID => if w.saveSimilarOk then SaveSimilarFile acc fileID simID else acc)
        (SaveAnalysisResult s fileID
          ⟨(AnalyzeText ta content).1, (AnalyzeText ta content).2.1,
           (AnalyzeText ta content).2.2,
           (CheckPlagiarism pc content (fetchOthers w fileID ids 1).1).1, ""⟩),
      [CallEvent.getAnalysisResult fileID, CallEvent.getFile fileID,
        CallEvent.getAllFileIDs] ++ (fetchOthers w fileID ids 1).2.2 ++
        [CallEvent.checkPlagiarism] ++ trW ++ [CallEvent.saveAnalysisResult fileID] ++
        (CheckPlagiarism pc content (fetchOthers w fileID ids 1).1).2.map
          (fun simID => CallEvent.saveSimilarFile fileID simID),
      ?_, rfl,
      ⟨(AnalyzeText ta content).1, (AnalyzeText ta content).2.1,
        (AnalyzeText ta content).2.2,
        (CheckPlagiarism pc content (fetchOthers w fileID ids 1).1).1, ""⟩,
      ?_, rfl, rfl, rfl, rfl⟩
    · simp [AnalyzeFile, hfresh, htarget 0, hlist, hsave, hW, hp]
    · rw [GetAnalysisResult_congr _ _ (foldl_saveSimilar_results ..) fileID]
      exact GetAnalysisResult_save ..
  · refine ⟨⟨(AnalyzeText ta content).1, (AnalyzeText ta content).2.1,
        (AnalyzeText ta content).2.2,
        (CheckPlagiarism pc content (fetchOthers w fileID ids 1).1).1,
        (CheckPlagiarism pc content (fetchOthers w fileID ids 1).1).2, ""⟩,
      SaveAnalysisResult s fileID
        ⟨(AnalyzeText ta content).1, (AnalyzeText ta content).2.1,
         (AnalyzeText ta content).2.2,
         (CheckPlagiarism pc content (fetchOthers w fileID ids 1).1).1, ""⟩,
      [CallEvent.getAnalysisResult fileID, CallEvent.getFile fileID,
        CallEvent.getAllFileIDs] ++ (fetchOthers w fileID ids 1).2.2 ++
        [CallEvent.checkPlagiarism] ++ trW ++ [CallEvent.saveAnalysisResult fileID],
      ?_, rfl,
      ⟨(AnalyzeText ta content).1, (AnalyzeText ta content).2.1,
        (AnalyzeText ta content).2.2,
        (CheckPlagiarism pc content (fetchOthers w fileID ids 1).1).1, ""⟩,
      ?_, rfl, rfl, rfl, rfl⟩
    · simp [AnalyzeFile, hfresh, htarget 0, hlist, hsave, hW, hp]
    · exact GetAnalysisResult_save ..

/-- Witness for C6: a world whose renderer fails. -/
theorem C6_wordCloudFailure_nonFatal_witness :
    GetAnalysisResult emptyStore "f" = none ∧
    (∀ k, wOk.getFile k "f" = some ("t.txt", "hello world".data)) ∧
    wOk.allFileIDs = some [] ∧
    wOk.saveResultOk = true ∧
    (wOk.renderWordCloud "hello world".data = none ∨ wOk.saveWordCloudOk = false) ∧
    (∃ out st tr,
      AnalyzeFile NewTextAnalyzer NewPlagiarismChecker wOk emptyStore "f" true =
        (Except.ok out, st, tr) ∧
      out.wordCloudLocation = "" ∧
      ∃ row, GetAnalysisResult st "f" = some row ∧
        row.wordCloudLocation = "" ∧
        row.paragraphCount = (AnalyzeText NewTextAnalyzer "hello world".data).1 ∧
        row.wordCount = (AnalyzeText NewTextAnalyzer "hello world".data).2.1 ∧
        row.characterCount = (AnalyzeText NewTextAnalyzer "hello world".data).2.2) :=
  ⟨rfl, fun _ => rfl, rfl, rfl, Or.inl rfl,
    C6_wordCloudFailure_nonFatal NewTextAnalyzer NewPlagiarismChecker wOk emptyStore
      "f" "t.txt" "hello world".data [] rfl (fun _ => rfl) rfl rfl (Or.inl rfl)⟩

/-- C9: when no cached result exists and a word cloud is requested, a
failing second fetch of the target content fails the whole request with
the content-fetch error and persists nothing, even though the similarity
comparison has already run. -/
theorem C9_wordCloudRefetchFailure_fatal (ta : TextAnalyzer) (pc : PlagiarismChecker)
    (w : World) (s : Store) (fileID nm : String) (content : Text) (ids : List String)
    (hfresh : GetAnalysisResult s fileID = none)
    (htarget0 : w.getFile 0 fileID = some (nm, content))
    (hlist : w.allFileIDs = some ids)
    (hrefetch : w.getFile (fetchOthers w fileID ids 1).2.1 fileID = none) :
    (AnalyzeFile ta pc w s fileID true).1 = Except.error SvcError.failedGetFileContent ∧
    (AnalyzeFile ta pc w s fileID true).2.1 = s ∧
    GetAnalysisResult (AnalyzeFile ta pc w s fileID true).2.1 fileID = none ∧
    CallEvent.checkPlagiarism ∈ (AnalyzeFile ta pc w s fileID true).2.2 := by
  have hW : wordCloudStep w s fileID (fetchOthers w fileID ids 1).2.1 =
      (Except.error SvcError.failedGetFileContent, [CallEvent.getFile fileID]) := by
    simp [wordCloudStep, hrefetch]
  simp [AnalyzeFile, hfresh, htarget0, hlist, hW]

/-- Witness for C9: a world where only the very first fetch succeeds. -/
theorem C9_wordCloudRefetchFailure_fatal_witness :
    GetAnalysisResult emptyStore "f" = none ∧
    wRefetchFail.getFile 0 "f" = some ("t.txt", "hello world".data) ∧
    wRefetchFail.allFileIDs = some [] ∧
    wRefetchFail.getFile (fetchOthers wRefetchFail "f" [] 1).2.1 "f" = none ∧
    ((AnalyzeFile NewTextAnalyzer NewPlagiarismChecker wRefetchFail emptyStore "f"
        true).1 = Except.error SvcError.failedGetFileContent ∧
      (AnalyzeFile NewTextAnalyzer NewPlagiarismChecker wRefetchFail emptyStore "f"
        true).2.1 = emptyStore ∧
      GetAnalysisResult
        (AnalyzeFile NewTextAnalyzer NewPlagiarismChecker wRefetchFail emptyStore "f"
          true).2.1 "f" = none ∧
      CallEvent.checkPlagiarism ∈
        (AnalyzeFile NewTextAnalyzer NewPlagiarismChecker wRefetchFail emptyStore "f"
          true).2.2) :=
  ⟨rfl, rfl, rfl, rfl,
    C9_wordCloudRefetchFailure_fatal NewTextAnalyzer NewPlagiarismChecker wRefetchFail
      emptyStore "f" "t.txt" "hello world".data [] rfl rfl rfl rfl⟩

end DocAnalyzer
